import Mathlib

/-!
# Verification of the sampler-bench judging / aggregation pipeline

Shallow embedding of the judge-dispatch / response-recovery / consensus /
statistical-aggregation core of the repository:

* `backend/evaluation/multi_judge.py`   (multi-judge dispatch, recovery parser, consensus)
* `backend/evaluation/llm_judge.py`     (single-judge parser, batch parser)
* `backend/evaluation/quality_aggregator.py` (confidence intervals, effect sizes,
  prompt consistency, enhanced benchmark results, legacy quality stats)

Modelling conventions:
* Python floats are modelled as exact rationals (`ℚ`); quantities produced by
  `math.sqrt` / `statistics.stdev` / `math.exp` live in `ℝ`.  Floating-point
  rounding is outside the model.
* Python dicts are modelled as association lists in insertion order; `dict.get`
  on a missing key yields the supplied default; calling `.get`/`.items` on a
  non-dict value raises `AttributeError`, which is modelled by `Except`.
* `json.loads` is modelled by `pyJsonLoads`, a recursive-descent parser for the
  JSON subset exercised by the repository's judge responses (objects, arrays,
  double-quoted strings without escape sequences, decimal numbers, `true`,
  `false`, `null`).  On strings outside this subset it returns `none`, which is
  a conservative model of a `json.JSONDecodeError`.
-/

set_option maxHeartbeats 1000000
set_option maxRecDepth 4000

/-- A parsed JSON value (the result type of `json.loads`). -/
inductive Json where
  | null : Json
  | bool (b : Bool) : Json
  | num (q : ℚ) : Json
  | str (s : String) : Json
  | arr (xs : List Json) : Json
  | obj (kvs : List (String × Json)) : Json
deriving Repr

/-- A Python exception escaping the code under study. -/
inductive PyErr where
  | attributeError : PyErr
  | typeError : PyErr
  | valueError : PyErr
deriving Repr, DecidableEq

namespace PyJson

/-- Whitespace as accepted between JSON tokens. -/
def isWs (c : Char) : Bool := c = ' ' || c = '\n' || c = '\t' || c = '\r'

/-- Skip leading whitespace. -/
def skipWs : List Char → List Char
  | [] => []
  | c :: cs => if isWs c then skipWs cs else c :: cs

/-- Parse a maximal run of decimal digits; fails when there is none. -/
def parseDigits : List Char → Option (List Char × List Char)
  | [] => none
  | c :: cs =>
    if c.isDigit then
      match parseDigits cs with
      | some (ds, rest) => some (c :: ds, rest)
      | none => some ([c], cs)
    else none

/-- Value of a digit run as a natural number. -/
def digitsVal (ds : List Char) : Nat :=
  ds.foldl (fun acc c => acc * 10 + (c.toNat - 48)) 0

/-- Parse a JSON number: optional minus sign, digits, optional fraction.
The value is assembled with `mkRat` over integer arithmetic. -/
def parseNumber (cs : List Char) : Option (ℚ × List Char) :=
  let (neg, cs₁) := match cs with
    | '-' :: rest => (true, rest)
    | _ => (false, cs)
  match parseDigits cs₁ with
  | none => none
  | some (intDs, cs₂) =>
    let (num, den, rest) : Nat × Nat × List Char := match cs₂ with
      | '.' :: cs₃ =>
        match parseDigits cs₃ with
        | some (fracDs, cs₄) =>
          (digitsVal intDs * 10 ^ fracDs.length + digitsVal fracDs, 10 ^ fracDs.length, cs₄)
        | none => (digitsVal intDs, 1, cs₂)
      | _ => (digitsVal intDs, 1, cs₂)
    some (mkRat (if neg then -(num : Int) else (num : Int)) den, rest)

/-- Parse a double-quoted JSON string body (no escape sequences in the
modelled subset); the opening quote has already been consumed. -/
def parseStringBody : List Char → Option (List Char × List Char)
  | [] => none
  | c :: cs =>
    if c = '"' then some ([], cs)
    else if c = '\\' then none
    else
      match parseStringBody cs with
      | some (body, rest) => some (c :: body, rest)
      | none => none

mutual

/-- Parse one JSON value (fuel-bounded recursive descent). -/
def parseValue : Nat → List Char → Option (Json × List Char)
  | 0, _ => none
  | fuel + 1, cs =>
    match skipWs cs with
    | [] => none
    | c :: rest =>
      if c = '"' then
        match parseStringBody rest with
        | some (body, rest') => some (Json.str (String.mk body), rest')
        | none => none
      else if c = '\x7b' then
        match parseMembers fuel (skipWs rest) true with
        | some (kvs, rest') => some (Json.obj kvs, rest')
        | none => none
      else if c = '[' then
        match parseElements fuel (skipWs rest) true with
        | some (xs, rest') => some (Json.arr xs, rest')
        | none => none
      else if c = 't' then
        match rest with
        | 'r' :: 'u' :: 'e' :: rest' => some (Json.bool true, rest')
        | _ => none
      else if c = 'f' then
        match rest with
        | 'a' :: 'l' :: 's' :: 'e' :: rest' => some (Json.bool false, rest')
        | _ => none
      else if c = 'n' then
        match rest with
        | 'u' :: 'l' :: 'l' :: rest' => some (Json.null, rest')
        | _ => none
      else
        match parseNumber (c :: rest) with
        | some (q, rest') => some (Json.num q, rest')
        | none => none

/-- Parse the members of a JSON object after the opening brace;
`first` is true when no member has been consumed yet. -/
def parseMembers : Nat → List Char → Bool → Option (List (String × Json) × List Char)
  | 0, _, _ => none
  | fuel + 1, cs, first =>
    match skipWs cs with
    | [] => none
    | c :: rest =>
      if c = '\x7d' then
        if first then some ([], rest) else none
      else
        let body := if first then c :: rest else
          if c = ',' then skipWs rest else []
        match body with
        | [] => none
        | c' :: rest' =>
          if c' = '"' then
            match parseStringBody rest' with
            | some (key, afterKey) =>
              match skipWs afterKey with
              | ':' :: afterColon =>
                match parseValue fuel (skipWs afterColon) with
                | some (v, afterVal) =>
                  match skipWs afterVal with
                  | '\x7d' :: rest'' => some ([(String.mk key, v)], rest'')
                  | ',' :: _ =>
                    match parseMembers fuel (skipWs afterVal) false with
                    | some (kvs, rest'') => some ((String.mk key, v) :: kvs, rest'')
                    | none => none
                  | _ => none
                | none => none
              | _ => none
            | none => none
          else none

/-- Parse the elements of a JSON array after the opening bracket;
`first` is true when no element has been consumed yet. -/
def parseElements : Nat → List Char → Bool → Option (List Json × List Char)
  | 0, _, _ => none
  | fuel + 1, cs, first =>
    match skipWs cs with
    | [] => none
    | c :: rest =>
      if c = ']' then
        if first then some ([], rest) else none
      else
        let body := if first then c :: rest else
          if c = ',' then skipWs rest else []
        match body with
        | [] => none
        | _ =>
          match parseValue fuel body with
          | some (v, afterVal) =>
            match skipWs afterVal with
            | ']' :: rest' => some ([v], rest')
            | ',' :: _ =>
              match parseElements fuel (skipWs afterVal) false with
              | some (xs, rest') => some (v :: xs, rest')
              | none => none
            | _ => none
          | none => none

end

end PyJson

/-- Model of `json.loads`: parse the whole input; trailing content other than
whitespace, or any syntax error, yields `none` (a `json.JSONDecodeError`). -/
def pyJsonLoads (s : String) : Option Json :=
  match PyJson.parseValue (s.length + 2) s.data with
  | some (v, rest) =>
    match PyJson.skipWs rest with
    | [] => some v
    | _ => none
  | none => none

/-- `d.get(k, default)` on a parsed JSON value: returns the value stored at
`k` (last occurrence, matching `dict` construction from duplicate keys) or the
default; raises `AttributeError` when the receiver is not an object. -/
def pyGet (j : Json) (k : String) (dflt : Json) : Except PyErr Json :=
  match j with
  | Json.obj kvs =>
    match (kvs.reverse.find? (fun kv => kv.1 = k)) with
    | some kv => Except.ok kv.2
    | none => Except.ok dflt
  | _ => Except.error PyErr.attributeError

/-- `d.items()` on a parsed JSON value: the key/value pairs in insertion
order; raises `AttributeError` when the receiver is not an object. -/
def pyItems (j : Json) : Except PyErr (List (String × Json)) :=
  match j with
  | Json.obj kvs => Except.ok kvs
  | _ => Except.error PyErr.attributeError

/-- `float(s)` on a string: parse a decimal literal allowing surrounding
whitespace; raises `ValueError` otherwise (exponents and `inf`/`nan` are
outside the modelled subset). -/
def pyFloatOfString (s : String) : Except PyErr ℚ :=
  match PyJson.parseNumber (PyJson.skipWs s.data) with
  | some (q, rest) =>
    match PyJson.skipWs rest with
    | [] => Except.ok q
    | _ => Except.error PyErr.valueError
  | none => Except.error PyErr.valueError

/-- `float(x)` on a parsed JSON value: numbers pass through, booleans become
0/1, numeric strings are parsed, everything else raises (`TypeError` for
`None`/lists/dicts, `ValueError` for non-numeric strings). -/
def pyFloat (j : Json) : Except PyErr ℚ :=
  match j with
  | Json.num q => Except.ok q
  | Json.bool b => Except.ok (if b then 1 else 0)
  | Json.str s => pyFloatOfString s
  | _ => Except.error PyErr.typeError

example : pyJsonLoads "\x7b\"a\": 1.5, \"b\": [true, null]\x7d" =
    some (Json.obj [("a", Json.num (mkRat 3 2)), ("b", Json.arr [Json.bool true, Json.null])]) := by
  rfl

example : pyJsonLoads "\x7b\"a\": 1" = none := by rfl

example : pyJsonLoads "" = none := by rfl

/-! ## Embedding of `backend/evaluation/multi_judge.py` -/

/-- The multi-judge criterion catalog (`MultiJudgeEvaluator.criteria`), in
declaration order. -/
def multiJudgeCriteria : List String :=
  ["narrative_structure", "creativity_execution", "character_voice",
   "prose_quality", "engagement"]

/-- One criterion entry of a parsed judge result:
`result['criterion_scores'][criterion] = {'score': ..., 'reasoning': ...}`. -/
structure CritEntry where
  criterion : String
  score : ℚ
  reasoning : Json
deriving Repr

/-- One judge's result dict as built by `_parse_judgment` /
`_create_fallback_result`: keys `judge_model`, `overall_score`,
`criterion_scores`, `summary`, and optionally `error`. -/
structure PyJudgeResult where
  judge_model : String
  overall_score : ℚ
  criterion_scores : List CritEntry
  summary : Json
  error : Option String
deriving Repr

/-- `MultiJudgeEvaluator._create_fallback_result`: neutral 5.0 scores for
every catalog criterion, with `error` recorded. -/
def createFallbackResult (model err : String) : PyJudgeResult :=
  { judge_model := model
    overall_score := 5
    criterion_scores := multiJudgeCriteria.map (fun c =>
      { criterion := c, score := 5, reasoning := Json.str ("Judge failed: " ++ err) })
    summary := Json.str ("Evaluation failed for " ++ model ++ ": " ++ err)
    error := some err }

/-- Lines 487–501 of `multi_judge.py`: build the result dict from parsed
judgment data.  `float()` conversions and attribute accesses on non-dict
values raise, which the surrounding code does not catch. -/
def buildJudgeResult (model : String) (j : Json) : Except PyErr PyJudgeResult := do
  let ov ← pyGet j "overall_score" (Json.num 5)
  let ovq ← pyFloat ov
  let summ ← pyGet j "summary" (Json.str "No summary provided")
  let cs ← pyGet j "criterion_scores" (Json.obj [])
  let items ← pyItems cs
  let entries ← items.mapM (fun kv => do
    let sc ← pyGet kv.2 "score" (Json.num 5)
    let scq ← pyFloat sc
    let rs ← pyGet kv.2 "reasoning" (Json.str "No reasoning provided")
    pure { criterion := kv.1, score := scq, reasoning := rs : CritEntry })
  pure { judge_model := model
         overall_score := ovq
         criterion_scores := entries
         summary := summ
         error := none }

/-- `MultiJudgeEvaluator._parse_judgment`: try `json.loads` on the whole
response, fall back to `_extract_json_from_text` (passed here as the
parameter `extractJson`, since none of the settled claims exercises a path
through a successful extraction), and otherwise return the neutral fallback
result with `error` set. -/
def parseJudgment (extractJson : String → Option Json)
    (text model : String) : Except PyErr PyJudgeResult :=
  match pyJsonLoads text with
  | some j => buildJudgeResult model j
  | none =>
    match extractJson text with
    | some j => buildJudgeResult model j
    | none => Except.ok (createFallbackResult model "Invalid JSON response")

/-- `statistics.mean` (exact rational arithmetic). -/
def pyMean (xs : List ℚ) : ℚ := xs.sum / (xs.length : ℚ)

/-- Sample variance `Σ (x − mean)² / (n − 1)` — the square of
`statistics.stdev`. -/
def sampleVarQ (xs : List ℚ) : ℚ :=
  ((xs.map (fun x => (x - pyMean xs) ^ 2)).sum) / ((xs.length : ℚ) - 1)

/-- `statistics.stdev` (meaningful only for two or more data points). -/
noncomputable def pyStdev (xs : List ℚ) : ℝ := Real.sqrt (sampleVarQ xs)

/-- The guarded pattern `statistics.stdev(xs) if len(xs) > 1 else 0.0`
used at every standard-deviation call site of the pipeline. -/
noncomputable def pyStdevGuarded (xs : List ℚ) : ℝ :=
  if 1 < xs.length then pyStdev xs else 0

/-- `max(0.0, min(1.0, x))`. -/
noncomputable def clamp01 (x : ℝ) : ℝ := max 0 (min 1 x)

/-- A consensus score for one criterion (`ConsensusScore` dataclass). -/
structure ConsensusScore where
  criterion : String
  mean_score : ℚ
  std_score : ℝ
  individual_scores : List ℚ
  individual_reasoning : List Json
  judge_models : List String
  consensus_strength : ℝ

/-- The criterion scores contributed for criterion `c` by each result that
has it, in result order (`_calculate_consensus`, lines 362–366). -/
def scoresFor (rs : List PyJudgeResult) (c : String) : List ℚ :=
  rs.filterMap (fun r => (r.criterion_scores.find? (fun e => e.criterion = c)).map (·.score))

/-- The reasoning strings contributed for criterion `c`. -/
def reasoningFor (rs : List PyJudgeResult) (c : String) : List Json :=
  rs.filterMap (fun r => (r.criterion_scores.find? (fun e => e.criterion = c)).map (·.reasoning))

/-- The judge models contributing criterion `c`. -/
def modelsFor (rs : List PyJudgeResult) (c : String) : List String :=
  rs.filterMap (fun r => (r.criterion_scores.find? (fun e => e.criterion = c)).map (fun _ => r.judge_model))

/-- `MultiJudgeEvaluator._calculate_consensus`: per catalog criterion, the
mean/std of the contributed scores and the clamped consensus strength
`1 − std/mean` (0 when the mean is not positive); criteria no judge scored
are skipped. -/
noncomputable def calculateConsensus (rs : List PyJudgeResult) : List ConsensusScore :=
  multiJudgeCriteria.filterMap (fun c =>
    let scores := scoresFor rs c
    if scores.isEmpty then none
    else some
      { criterion := c
        mean_score := pyMean scores
        std_score := pyStdevGuarded scores
        individual_scores := scores
        individual_reasoning := reasoningFor rs c
        judge_models := modelsFor rs c
        consensus_strength :=
          clamp01 (if 0 < pyMean scores
                   then 1 - pyStdevGuarded scores / (pyMean scores : ℝ)
                   else 0) })

/-- `MultiJudgeEvaluator._get_parallel_judgments`: the network call and
per-judge evaluation are abstracted as `outcome`; a failed future is replaced
by the fallback result.  Results are collected in completion order, which is
the parameter `arrival` (a permutation of the configured judges). -/
def getParallelJudgments (outcome : String → Except String PyJudgeResult)
    (arrival : List String) : List PyJudgeResult :=
  arrival.map (fun m =>
    match outcome m with
    | Except.ok r => r
    | Except.error e => createFallbackResult m e)

/-- `MultiJudgeResult` (the `summary` and wall-clock `evaluation_time`
fields, which are presentation-only, are not modelled). -/
structure MultiJudgeResult where
  overall_score : ℚ
  overall_std : ℝ
  criterion_scores : List ConsensusScore
  judge_models : List String
  judge_count : ℕ
  consensus_method : String
  individual_results : List PyJudgeResult

/-- `MultiJudgeEvaluator.evaluate_text` (lines 240–270): dispatch to all
judges, compute consensus, and report `judge_count = len(self.judge_models)`. -/
noncomputable def evaluateText (judges : List String)
    (outcome : String → Except String PyJudgeResult)
    (arrival : List String) : MultiJudgeResult :=
  let ind := getParallelJudgments outcome arrival
  let overallScores := ind.map (·.overall_score)
  { overall_score := pyMean overallScores
    overall_std := pyStdevGuarded overallScores
    criterion_scores := calculateConsensus ind
    judge_models := judges
    judge_count := judges.length
    consensus_method := "average"
    individual_results := ind }

/-! ## Embedding of `backend/evaluation/llm_judge.py` -/

/-- The single-judge criterion catalog (`CreativeWritingJudge.criteria`), in
declaration order. -/
def llmJudgeCriteria : List String :=
  ["narrative_coherence", "creativity_originality", "character_development",
   "engagement_readability", "stylistic_quality"]

/-- `self.criteria.get(criterion, {}).get('weight', 0.2)`: catalog weight of
a criterion, `0.2` for unknown criteria. -/
def llmJudgeWeight (c : String) : ℚ :=
  if c = "narrative_coherence" then mkRat 1 4
  else if c = "creativity_originality" then mkRat 1 4
  else if c = "character_development" then mkRat 1 5
  else if c = "engagement_readability" then mkRat 1 5
  else if c = "stylistic_quality" then mkRat 1 10
  else mkRat 1 5

/-- `JudgmentScore` dataclass of `llm_judge.py`. -/
structure JudgmentScore where
  criterion : String
  score : ℚ
  reasoning : Json
deriving Repr

/-- `JudgmentResult` dataclass of `llm_judge.py`. -/
structure JudgmentResult where
  overall_score : ℚ
  criterion_scores : List JudgmentScore
  summary : Json
  evaluation_time : ℚ
  model_used : String
deriving Repr

/-- The weighted criterion sum of lines 206–210 / 409–412:
`sum(score * weight(criterion) for each criterion score)`. -/
def llmWeightedSum (entries : List JudgmentScore) : ℚ :=
  (entries.map (fun e => e.score * llmJudgeWeight e.criterion)).sum

/-- The fallback `JudgmentResult` built when `json.loads` fails in
`CreativeWritingJudge._parse_judgment` (the interpolated exception text is
not modelled). -/
def llmFallbackJudgment (evalTime : ℚ) (model : String) : JudgmentResult :=
  { overall_score := 5
    criterion_scores := llmJudgeCriteria.map (fun c =>
      { criterion := c, score := 5, reasoning := Json.str "Failed to parse judgment" })
    summary := Json.str "Failed to parse judgment response"
    evaluation_time := evalTime
    model_used := model }

/-- Lines 193–219 of `llm_judge.py`: build a `JudgmentResult` from parsed
judgment data; an overall score equal to 5.0 with at least one criterion
score is replaced by the weighted criterion sum. -/
def llmBuildJudgment (j : Json) (evalTime : ℚ) (model : String) :
    Except PyErr JudgmentResult := do
  let cs ← pyGet j "criterion_scores" (Json.obj [])
  let items ← pyItems cs
  let entries ← items.mapM (fun kv => do
    let sc ← pyGet kv.2 "score" (Json.num 5)
    let scq ← pyFloat sc
    let rs ← pyGet kv.2 "reasoning" (Json.str "No reasoning provided")
    pure { criterion := kv.1, score := scq, reasoning := rs : JudgmentScore })
  let ov ← pyGet j "overall_score" (Json.num 5)
  let ovq ← pyFloat ov
  let overall := if ovq = 5 ∧ entries.isEmpty = false then llmWeightedSum entries else ovq
  let summ ← pyGet j "summary" (Json.str "No summary provided")
  pure { overall_score := overall
         criterion_scores := entries
         summary := summ
         evaluation_time := evalTime
         model_used := model }

/-- `CreativeWritingJudge._parse_judgment`: `json.loads` then result
construction; a `json.JSONDecodeError` yields the neutral fallback result,
while type errors inside the construction propagate (the source catches only
`JSONDecodeError` and `KeyError`). -/
def llmParseJudgment (text : String) (evalTime : ℚ) (model : String) :
    Except PyErr JudgmentResult :=
  match pyJsonLoads text with
  | some j => llmBuildJudgment j evalTime model
  | none => Except.ok (llmFallbackJudgment evalTime model)

/-- The per-evaluation body of the loop in
`CreativeWritingJudge._parse_batch_judgment` (lines 396–422), identical in
logic to the single path including the 5.0 replacement. -/
def llmBuildBatchOne (evaluation : Json) (avgTime : ℚ) (model : String) :
    Except PyErr JudgmentResult := do
  let cs ← pyGet evaluation "criterion_scores" (Json.obj [])
  let items ← pyItems cs
  let entries ← items.mapM (fun kv => do
    let sc ← pyGet kv.2 "score" (Json.num 5)
    let scq ← pyFloat sc
    let rs ← pyGet kv.2 "reasoning" (Json.str "No reasoning provided")
    pure { criterion := kv.1, score := scq, reasoning := rs : JudgmentScore })
  let ov ← pyGet evaluation "overall_score" (Json.num 5)
  let ovq ← pyFloat ov
  let overall := if ovq = 5 ∧ entries.isEmpty = false then llmWeightedSum entries else ovq
  let summ ← pyGet evaluation "summary" (Json.str "No summary provided")
  pure { overall_score := overall
         criterion_scores := entries
         summary := summ
         evaluation_time := avgTime
         model_used := model }

/-- The padding result appended when the batch response holds fewer
evaluations than samples. -/
def llmIncompleteResult (avgTime : ℚ) (model : String) : JudgmentResult :=
  { overall_score := 5
    criterion_scores := llmJudgeCriteria.map (fun c =>
      { criterion := c, score := 5, reasoning := Json.str "Incomplete batch response" })
    summary := Json.str "Incomplete batch response"
    evaluation_time := avgTime
    model_used := model }

/-- The per-sample fallback when batch parsing fails outright. -/
def llmBatchFailResult (avgTime : ℚ) (model : String) : JudgmentResult :=
  { overall_score := 5
    criterion_scores := llmJudgeCriteria.map (fun c =>
      { criterion := c, score := 5, reasoning := Json.str "Batch parsing failed" })
    summary := Json.str "Batch parsing failed"
    evaluation_time := avgTime
    model_used := model }

/-- `CreativeWritingJudge._parse_batch_judgment`: parse the batched
response, process at most `nsamples` evaluations, pad with incomplete-batch
results, and produce a full fallback list when `json.loads` fails.
Iterating a non-list `evaluations` value is modelled as a `TypeError`. -/
def llmParseBatchJudgment (text : String) (nsamples : ℕ) (avgTime : ℚ)
    (model : String) : Except PyErr (List JudgmentResult) :=
  match pyJsonLoads text with
  | none => Except.ok (List.replicate nsamples (llmBatchFailResult avgTime model))
  | some j => do
    let evsJson ← pyGet j "evaluations" (Json.arr [])
    let evs ← match evsJson with
      | Json.arr xs => Except.ok xs
      | _ => Except.error PyErr.typeError
    let results ← (evs.take nsamples).mapM (fun e => llmBuildBatchOne e avgTime model)
    pure (results ++ List.replicate (nsamples - results.length) (llmIncompleteResult avgTime model))

/-- First-occurrence deduplication with an accumulator of already-seen
elements (structural recursion, so that it evaluates by `rfl`). -/
def pyDedupAux [DecidableEq α] : List α → List α → List α
  | _, [] => []
  | seen, x :: xs =>
    if x ∈ seen then pyDedupAux seen xs else x :: pyDedupAux (x :: seen) xs

/-- The key order of a Python dict built by repeated insertion: each key at
its first occurrence. -/
def pyDedup [DecidableEq α] (l : List α) : List α := pyDedupAux [] l

/-! ## Embedding of `backend/evaluation/quality_aggregator.py` -/

/-- `JudgmentSample` dataclass: one judged generation.  The sampler
configuration is modelled as an opaque key/value list. -/
structure JudgmentSample where
  prompt : String
  sampler_name : String
  sampler_config : List (String × String)
  generated_text : String
  judgment : Option JudgmentResult
  repetition : ℕ
deriving Repr

/-- The fixed t-value lookup table of `calculate_confidence_interval`
(`t_values.get(n-1, 2.0)`): approximate 95% two-sided t-values for
`df` degrees of freedom up to 10, defaulting to `2.0`. -/
def tValueTable (df : ℕ) : ℚ :=
  if df = 1 then mkRat 1271 100
  else if df = 2 then mkRat 43 10
  else if df = 3 then mkRat 318 100
  else if df = 4 then mkRat 278 100
  else if df = 5 then mkRat 257 100
  else if df = 6 then mkRat 245 100
  else if df = 7 then mkRat 236 100
  else if df = 8 then mkRat 231 100
  else if df = 9 then mkRat 226 100
  else if df = 10 then mkRat 223 100
  else 2

/-- `EnhancedQualityAggregator.calculate_confidence_interval`: with fewer
than 2 scores the interval collapses to the single point (or `(0,0)` when
empty); otherwise `mean ± t · std/√n` with the t-value chosen from the
lookup table for `n < 30` and `z = 1.96` for `n ≥ 30`. -/
noncomputable def calculate_confidence_interval (scores : List ℚ) : ℝ × ℝ :=
  if scores.length < 2 then
    match scores with
    | [] => ((0 : ℝ), (0 : ℝ))
    | x :: _ => ((x : ℝ), (x : ℝ))
  else
    let mean : ℚ := pyMean scores
    let n : ℕ := scores.length
    let tValue : ℚ := if n < 30 then tValueTable (n - 1) else mkRat 196 100
    let marginError : ℝ := (tValue : ℝ) * (pyStdev scores / Real.sqrt (n : ℝ))
    ((mean : ℝ) - marginError, (mean : ℝ) + marginError)

/-- The pooled standard deviation of `calculate_cohens_d` (lines 132–134):
`sqrt(((n₁−1)·std₁² + (n₂−1)·std₂²) / (n₁+n₂−2))`. -/
noncomputable def pooledStd (s1 s2 : List ℚ) : ℝ :=
  Real.sqrt ((((s1.length : ℝ) - 1) * (pyStdev s1) ^ 2 +
              ((s2.length : ℝ) - 1) * (pyStdev s2) ^ 2) /
             ((s1.length : ℝ) + (s2.length : ℝ) - 2))

open Classical in
/-- `EnhancedQualityAggregator.calculate_cohens_d`: 0 when either group has
fewer than 2 scores or the pooled standard deviation is 0, else the
standardized mean difference. -/
noncomputable def calculate_cohens_d (s1 s2 : List ℚ) : ℝ :=
  if s1.length < 2 ∨ s2.length < 2 then 0
  else if pooledStd s1 s2 = 0 then 0
  else ((pyMean s1 : ℝ) - (pyMean s2 : ℝ)) / pooledStd s1 s2

/-- The samples that carry a judgment, in insertion order
(`group_by_prompt_sampler` skips `judgment is None`). -/
def judgedSamples (samples : List JudgmentSample) : List JudgmentSample :=
  samples.filter (fun s => s.judgment.isSome)

/-- The `(prompt, sampler)` keys in first-occurrence order (`defaultdict`
insertion order). -/
def groupKeys (samples : List JudgmentSample) : List (String × String) :=
  pyDedup ((judgedSamples samples).map (fun s => (s.prompt, s.sampler_name)))

/-- `EnhancedQualityAggregator.group_by_prompt_sampler`. -/
def groupByPromptSampler (samples : List JudgmentSample) :
    List ((String × String) × List JudgmentSample) :=
  (groupKeys samples).map (fun k =>
    (k, (judgedSamples samples).filter (fun s => (s.prompt, s.sampler_name) = k)))

/-- `PromptSamplerStats` dataclass. -/
structure PromptSamplerStats where
  prompt : String
  sampler_name : String
  repetition_scores : List ℚ
  mean_score : ℚ
  std_dev : ℝ
  confidence_interval : ℝ × ℝ
  sample_size : ℕ

/-- The overall score of a judged sample (groups only ever hold samples
whose judgment is present, so the default is never read). -/
def sampleOverall (s : JudgmentSample) : ℚ :=
  (s.judgment.map (fun j => j.overall_score)).getD 0

/-- `EnhancedQualityAggregator.calculate_prompt_sampler_stats`. -/
noncomputable def calculate_prompt_sampler_stats (samples : List JudgmentSample) :
    Option PromptSamplerStats :=
  match samples with
  | [] => none
  | s0 :: _ =>
    let scores := samples.map sampleOverall
    some
      { prompt := s0.prompt
        sampler_name := s0.sampler_name
        repetition_scores := scores
        mean_score := pyMean scores
        std_dev := pyStdevGuarded scores
        confidence_interval := calculate_confidence_interval scores
        sample_size := samples.length }

/-- Per-criterion summary entry of `calculate_criterion_stats`. -/
structure CriterionStat where
  mean : ℚ
  std : ℝ
  min : ℚ
  max : ℚ
  count : ℕ

/-- `min` over a nonempty list of rationals (Python `min(list)`). -/
def qListMin : List ℚ → ℚ
  | [] => 0
  | x :: xs => xs.foldl min x

/-- `max` over a nonempty list of rationals (Python `max(list)`). -/
def qListMax : List ℚ → ℚ
  | [] => 0
  | x :: xs => xs.foldl max x

/-- The scores a sampler's judged samples assign to criterion `c` (first
matching entry per sample, mirroring the `break`). -/
def criterionScoresOf (samples : List JudgmentSample) (sampler c : String) : List ℚ :=
  (samples.filter (fun s => s.sampler_name = sampler ∧ s.judgment.isSome)).filterMap
    (fun s => match s.judgment with
      | some j => (j.criterion_scores.find? (fun e => e.criterion = c)).map (fun e => e.score)
      | none => none)

/-- The criterion names appearing across a sampler's judged samples.
Python collects them in a `set`, whose iteration order is arbitrary but
fixed within a process; it is modelled as first-occurrence order. -/
def criterionNamesOf (samples : List JudgmentSample) (sampler : String) : List String :=
  pyDedup (((samples.filter (fun s => s.sampler_name = sampler ∧ s.judgment.isSome)).map
    (fun s => match s.judgment with
      | some j => j.criterion_scores.map (fun e => e.criterion)
      | none => [])).flatten)

/-- `EnhancedQualityAggregator.calculate_criterion_stats`. -/
noncomputable def calculate_criterion_stats (samples : List JudgmentSample)
    (sampler : String) : List (String × CriterionStat) :=
  if (samples.filter (fun s => s.sampler_name = sampler ∧ s.judgment.isSome)).isEmpty then []
  else
    (criterionNamesOf samples sampler).filterMap (fun c =>
      let scores := criterionScoresOf samples sampler c
      if scores.isEmpty then none
      else some (c,
        { mean := pyMean scores
          std := pyStdevGuarded scores
          min := qListMin scores
          max := qListMax scores
          count := scores.length }))

/-- `SamplerStats` dataclass. -/
structure SamplerStats where
  sampler_name : String
  sampler_config : List (String × String)
  overall_mean : ℚ
  overall_std : ℝ
  overall_confidence_interval : ℝ × ℝ
  prompt_stats : List PromptSamplerStats
  prompt_consistency : ℝ
  total_samples : ℕ
  prompts_covered : ℕ
  criterion_stats : List (String × CriterionStat)

/-- The cross-prompt consistency of `calculate_sampler_stats` (lines
200–202): `max(0, min(10, 10 − std(prompt_means)))` with the usual guard
for fewer than 2 prompt means. -/
noncomputable def promptConsistency (promptMeans : List ℚ) : ℝ :=
  max 0 (min 10 (10 - pyStdevGuarded promptMeans))

/-- `EnhancedQualityAggregator.calculate_sampler_stats`. -/
noncomputable def calculate_sampler_stats (samples : List JudgmentSample)
    (sampler : String) (promptStats : List PromptSamplerStats) :
    Option SamplerStats :=
  if promptStats.isEmpty then none
  else
    let config :=
      ((samples.find? (fun s => s.sampler_name = sampler)).map
        (fun s => s.sampler_config)).getD []
    let allScores := (promptStats.map (fun ps => ps.repetition_scores)).flatten
    let promptMeans := promptStats.map (fun ps => ps.mean_score)
    some
      { sampler_name := sampler
        sampler_config := config
        overall_mean := pyMean allScores
        overall_std := pyStdevGuarded allScores
        overall_confidence_interval := calculate_confidence_interval allScores
        prompt_stats := promptStats
        prompt_consistency := promptConsistency promptMeans
        total_samples := allScores.length
        prompts_covered := promptStats.length
        criterion_stats := calculate_criterion_stats samples sampler }

/-- All repetition scores of a sampler's statistics, flattened across its
per-prompt statistics (the `scores.extend(ps.repetition_scores)` loops). -/
def statsScores (st : SamplerStats) : List ℚ :=
  (st.prompt_stats.map (fun ps => ps.repetition_scores)).flatten

open Classical in
/-- The body of the significance loop in
`calculate_statistical_significance` (lines 271–288): the approximate
p-value `max(0.001, 2·exp(−|mean₁−mean₂|/se))`, 1 for degenerate inputs. -/
noncomputable def pairSignificance (scores1 scores2 : List ℚ) : ℝ :=
  if 1 < scores1.length ∧ 1 < scores2.length then
    let se := Real.sqrt ((pyStdev scores1) ^ 2 / (scores1.length : ℝ) +
                         (pyStdev scores2) ^ 2 / (scores2.length : ℝ))
    if 0 < se then
      max (mkRat 1 1000 : ℝ) (2 * Real.exp (-(|((pyMean scores1 : ℝ)) - ((pyMean scores2 : ℝ))| / se)))
    else 1
  else 1

/-- The ordered pairs `(i, j)` with `i < j` of a list, in the iteration
order of the nested loops `for i, s1 in enumerate(...): for s2 in
samplers[i+1:]`. -/
def orderedPairs : List α → List (α × α)
  | [] => []
  | x :: xs => xs.map (fun y => (x, y)) ++ orderedPairs xs

/-- `EnhancedQualityAggregator.calculate_statistical_significance`, as the
assignment list written by the loop (both directions carry the same
p-value). -/
noncomputable def calculate_statistical_significance
    (samplerStats : List (String × SamplerStats)) : List ((String × String) × ℝ) :=
  ((orderedPairs samplerStats).map (fun p =>
    let pv := pairSignificance (statsScores p.1.2) (statsScores p.2.2)
    [((p.1.1, p.2.1), pv), ((p.2.1, p.1.1), pv)])).flatten

/-- `EnhancedQualityAggregator.calculate_effect_sizes`, as the assignment
list written by the loop (`[b][a]` carries the negated Cohen's d). -/
noncomputable def calculate_effect_sizes
    (samplerStats : List (String × SamplerStats)) : List ((String × String) × ℝ) :=
  ((orderedPairs samplerStats).map (fun p =>
    let d := calculate_cohens_d (statsScores p.1.2) (statsScores p.2.2)
    [((p.1.1, p.2.1), d), ((p.2.1, p.1.1), -d)])).flatten

/-- The best-sampler scan of lines 348–356: fold over sampler statistics
and their per-prompt entries, replacing the champion on a strictly greater
mean score, starting from `("", 0.0)`. -/
def bestForPrompt (samplerStats : List (String × SamplerStats))
    (prompt : String) : String :=
  (samplerStats.foldl (fun acc p =>
    p.2.prompt_stats.foldl (fun acc2 ps =>
      if ps.prompt = prompt ∧ acc2.2 < ps.mean_score then (p.1, ps.mean_score) else acc2)
      acc) ("", (0 : ℚ))).1

open Classical in
/-- Python's `max(items, key=...)`: the first element whose key no later
element strictly exceeds; `none` on an empty sequence (where Python raises
`ValueError`). -/
noncomputable def pyMaxByKey (key : α → ℝ) (l : List α) : Option α :=
  l.foldl (fun acc x =>
    match acc with
    | none => some x
    | some b => if key b < key x then some x else some b) none

/-- `QualityBenchmarkResults` dataclass (the dict-valued fields are modelled
as assignment lists in insertion order). -/
structure QualityBenchmarkResults where
  benchmark_name : String
  timestamp : String
  model_name : String
  samples : List JudgmentSample
  sampler_stats : List (String × SamplerStats)
  statistical_significance : List ((String × String) × ℝ)
  effect_sizes : List ((String × String) × ℝ)
  best_sampler_per_prompt : List (String × String)
  most_consistent_sampler : String
  highest_quality_sampler : String

/-- The sampler names in `defaultdict` insertion order (first appearance
among the group keys). -/
def samplerNamesOf (samples : List JudgmentSample) : List String :=
  pyDedup ((groupKeys samples).map (fun k => k.2))

/-- The per-sampler prompt statistics lists (`sampler_prompt_stats`). -/
noncomputable def samplerPromptStatsOf (samples : List JudgmentSample) :
    List (String × List PromptSamplerStats) :=
  (samplerNamesOf samples).map (fun s =>
    (s, ((groupByPromptSampler samples).filter (fun g => g.1.2 = s)).filterMap
      (fun g => calculate_prompt_sampler_stats g.2)))

/-- The `sampler_stats` dict of `get_enhanced_benchmark_results`.
`calculate_sampler_stats` returns `none` only for an empty prompt-stats
list, which cannot reach this point (groups are nonempty), so the
`filterMap` never drops a sampler. -/
noncomputable def samplerStatsOf (samples : List JudgmentSample) :
    List (String × SamplerStats) :=
  (samplerPromptStatsOf samples).filterMap (fun p =>
    (calculate_sampler_stats samples p.1 p.2).map (fun st => (p.1, st)))

/-- The distinct prompts among the group keys.  Python collects them in a
`set`, whose iteration order is arbitrary but fixed within a process; it is
modelled as first-occurrence order (both `compute()` calls of a process see
the same order). -/
def allPromptsOf (samples : List JudgmentSample) : List String :=
  pyDedup ((groupByPromptSampler samples).map (fun g => g.1.1))

/-- `EnhancedQualityAggregator.get_enhanced_benchmark_results`: the full
verdict construction.  The wall-clock `time.strftime` timestamp is the
explicit `timestamp` argument; `max()` over an empty sampler-statistics
dict raises `ValueError`, modelled as the error branch. -/
noncomputable def get_enhanced_benchmark_results (samples : List JudgmentSample)
    (benchmarkName modelName timestamp : String) :
    Except String QualityBenchmarkResults :=
  let samplerStats := samplerStatsOf samples
  let significance := calculate_statistical_significance samplerStats
  let effectSizes := calculate_effect_sizes samplerStats
  let bestPerPrompt := (allPromptsOf samples).map (fun p =>
    (p, bestForPrompt samplerStats p))
  match pyMaxByKey (fun p => p.2.prompt_consistency) samplerStats,
        pyMaxByKey (fun p => p.2.overall_mean) samplerStats with
  | some mostConsistent, some highestQuality =>
    Except.ok
      { benchmark_name := benchmarkName
        timestamp := timestamp
        model_name := modelName
        samples := samples
        sampler_stats := samplerStats
        statistical_significance := significance
        effect_sizes := effectSizes
        best_sampler_per_prompt := bestPerPrompt
        most_consistent_sampler := mostConsistent.1
        highest_quality_sampler := highestQuality.1 }
  | _, _ => Except.error "ValueError: max() arg is an empty sequence"


/-- `QualitySample` dataclass of the legacy `QualityAggregator`. -/
structure QualitySample where
  prompt : String
  sampler_name : String
  sampler_config : List (String × String)
  generated_text : String
  word_count : ℕ
  judgment : Option JudgmentResult
deriving Repr

/-- Population variance `Σ (x − mean)² / n` (the legacy consistency
computation, lines 569–570). -/
def popVarQ (xs : List ℚ) : ℚ :=
  ((xs.map (fun x => (x - pyMean xs) ^ 2)).sum) / (xs.length : ℚ)

/-- Criterion breakdown entry of the legacy quality stats. -/
structure CritBreakdown where
  avg_score : ℚ
  min_score : ℚ
  max_score : ℚ
  scores : List ℚ
  sample_reasonings : List Json
deriving Repr

/-- `overall_quality` sub-dict of the legacy quality stats. -/
structure OverallQuality where
  avg_score : ℚ
  min_score : ℚ
  max_score : ℚ
  scores : List ℚ
  consistency : ℚ
deriving Repr

/-- Per-sampler entry of the legacy quality stats. -/
structure SamplerQuality where
  sample_count : ℕ
  overall_quality : OverallQuality
  criterion_breakdown : List (String × CritBreakdown)
  sampler_config : List (String × String)
  judge_model : String
  sample_summaries : List Json
deriving Repr

/-- The three observable shapes of `calculate_quality_stats`: the empty
dict `{}` for no samples at all, the `{'message': 'No quality judgments
available'}` marker for samples without judgments, and the per-sampler
statistics dict. -/
inductive QualityStats where
  | empty : QualityStats
  | noJudgments : QualityStats
  | stats (entries : List (String × SamplerQuality)) : QualityStats
deriving Repr

/-- The judgment of a sample known to be judged (the default is never read
on the paths where this is used). -/
def sampleJudgment (s : QualitySample) : JudgmentResult :=
  s.judgment.getD (llmFallbackJudgment 0 "")

/-- The per-sampler entry built by the body of the legacy
`calculate_quality_stats` loop (lines 541–588). -/
def legacySamplerEntry (group : List QualitySample) : SamplerQuality :=
  let overallScores := group.map (fun s => (sampleJudgment s).overall_score)
  let criterionNames : List String := match group with
    | [] => []
    | s0 :: _ => (sampleJudgment s0).criterion_scores.map (fun e => e.criterion)
  let criterionStats := criterionNames.filterMap (fun c =>
    let scores : List ℚ := group.filterMap (fun s =>
      ((sampleJudgment s).criterion_scores.find? (fun e => e.criterion = c)).map
        (fun e => e.score))
    let reasonings : List Json := group.filterMap (fun s =>
      ((sampleJudgment s).criterion_scores.find? (fun e => e.criterion = c)).map
        (fun e => e.reasoning))
    if scores.isEmpty then none
    else some (c,
      { avg_score := scores.sum / (scores.length : ℚ)
        min_score := qListMin scores
        max_score := qListMax scores
        scores := scores
        sample_reasonings := reasonings.take 3 : CritBreakdown }))
  let consistency : ℚ :=
    if 1 < overallScores.length then max 0 (10 - popVarQ overallScores) else 10
  { sample_count := group.length
    overall_quality :=
      { avg_score := overallScores.sum / (overallScores.length : ℚ)
        min_score := qListMin overallScores
        max_score := qListMax overallScores
        scores := overallScores
        consistency := consistency }
    criterion_breakdown := criterionStats
    sampler_config := (group.headD ⟨"", "", [], "", 0, none⟩).sampler_config
    judge_model := match group with
      | [] => ""
      | s0 :: _ => (sampleJudgment s0).model_used
    sample_summaries := (group.take 3).map (fun s => (sampleJudgment s).summary) }

/-- `QualityAggregator.calculate_quality_stats` (legacy aggregator, lines
521–590): explicit empty / no-judgments markers, otherwise per-sampler
statistics grouped by sampler name in insertion order. -/
def calculate_quality_stats (samples : List QualitySample) : QualityStats :=
  if samples.isEmpty then QualityStats.empty
  else
    let judged := samples.filter (fun s => s.judgment.isSome)
    if judged.isEmpty then QualityStats.noJudgments
    else
      let samplerNames := pyDedup (judged.map (fun s => s.sampler_name))
      QualityStats.stats (samplerNames.map (fun name =>
        (name, legacySamplerEntry (judged.filter (fun s => s.sampler_name = name)))))

/-! ## Concrete inputs used by the claim theorems -/

/-- A syntactically valid judge response reporting scores outside `[1,10]`. -/
def c1Text : String :=
  "\x7b\"overall_score\": 15.0, \"criterion_scores\": \x7b\"narrative_structure\": \x7b\"score\": 20.0, \"reasoning\": \"poor\"\x7d\x7d, \"summary\": \"s\"\x7d"

/-- The parsed form of `c1Text`. -/
def c1Json : Json :=
  Json.obj [("overall_score", Json.num 15),
            ("criterion_scores", Json.obj
              [("narrative_structure", Json.obj
                [("score", Json.num 20), ("reasoning", Json.str "poor")])]),
            ("summary", Json.str "s")]

/-- A syntactically valid judge response whose overall score is a
non-numeric string, on which `float()` raises. -/
def c1RaiseText : String := "\x7b\"overall_score\": \"abc\"\x7d"

/-- One successful judge result with the given overall and criterion score. -/
def mkJudgeResult (m : String) (q : ℚ) : PyJudgeResult :=
  { judge_model := m
    overall_score := q
    criterion_scores := [{ criterion := "narrative_structure", score := q,
                           reasoning := Json.str "r" }]
    summary := Json.str "s"
    error := none }

/-- Judge outcomes for the three-judge 6/7/8 scenario. -/
def c2Outcome : String → Except String PyJudgeResult := fun m =>
  if m = "j1" then Except.ok (mkJudgeResult "j1" 6)
  else if m = "j2" then Except.ok (mkJudgeResult "j2" 7)
  else Except.ok (mkJudgeResult "j3" 8)

/-- Judge outcomes where judge `b` times out and judge `a` succeeds. -/
def c3Outcome : String → Except String PyJudgeResult := fun m =>
  if m = "b" then Except.error "timeout" else Except.ok (mkJudgeResult "a" 6)

/-- A judged sample for the aggregation scenarios. -/
def c4Sample : JudgmentSample :=
  { prompt := "p"
    sampler_name := "s"
    sampler_config := []
    generated_text := "t"
    judgment := some { overall_score := 8, criterion_scores := [],
                       summary := Json.str "s", evaluation_time := 0,
                       model_used := "m" }
    repetition := 1 }

/-- Erase the wall-clock timestamp of a benchmark result. -/
def eraseTimestamp (r : QualityBenchmarkResults) : QualityBenchmarkResults :=
  { r with timestamp := "" }

/-- Twelve scores with mean 7 and sample variance exactly 12. -/
def c5Scores : List ℚ := [14, 0, 11, 3, 8, 6, 7, 7, 7, 7, 7, 7]

/-- A quality sample that was never judged. -/
def c7Unjudged : QualitySample :=
  { prompt := "p", sampler_name := "s", sampler_config := [],
    generated_text := "t", word_count := 1, judgment := none }

/-- A single successful judge result scoring one criterion 6. -/
def c8r : PyJudgeResult := mkJudgeResult "a" 6

/-- The consensus entry produced from the single opinion `c8r`. -/
noncomputable def c8cs : ConsensusScore :=
  (calculateConsensus [c8r]).headD ⟨"", 0, 0, [], [], [], 0⟩

/-- A judge response that genuinely reports an overall score of 5.0 with
every criterion also scored 5.0. -/
def c10Text : String :=
  "\x7b\"criterion_scores\": \x7b\"narrative_coherence\": \x7b\"score\": 5.0, \"reasoning\": \"a\"\x7d, \"creativity_originality\": \x7b\"score\": 5.0, \"reasoning\": \"b\"\x7d, \"character_development\": \x7b\"score\": 5.0, \"reasoning\": \"c\"\x7d, \"engagement_readability\": \x7b\"score\": 5.0, \"reasoning\": \"d\"\x7d, \"stylistic_quality\": \x7b\"score\": 5.0, \"reasoning\": \"e\"\x7d\x7d, \"overall_score\": 5.0, \"summary\": \"s\"\x7d"

/-- Parsed judgment data with overall score 5.0 and one criterion scored 4. -/
def c10wJson : Json :=
  Json.obj [("criterion_scores", Json.obj
              [("narrative_coherence", Json.obj
                [("score", Json.num 4), ("reasoning", Json.str "r")])]),
            ("overall_score", Json.num 5)]

/-- The judgment the single-judge parser builds from `c10wJson`. -/
def c10wResult : JudgmentResult :=
  { overall_score := llmWeightedSum [⟨"narrative_coherence", 4, Json.str "r"⟩]
    criterion_scores := [⟨"narrative_coherence", 4, Json.str "r"⟩]
    summary := Json.str "No summary provided"
    evaluation_time := 0
    model_used := "m" }

/-- The five criterion entries of `c10Text`, each scored 5.0. -/
def c10Entries : List JudgmentScore :=
  [⟨"narrative_coherence", 5, Json.str "a"⟩,
   ⟨"creativity_originality", 5, Json.str "b"⟩,
   ⟨"character_development", 5, Json.str "c"⟩,
   ⟨"engagement_readability", 5, Json.str "d"⟩,
   ⟨"stylistic_quality", 5, Json.str "e"⟩]

/-- The judgment the single-judge parser builds from `c10Text`. -/
def c10FullResult : JudgmentResult :=
  { overall_score := llmWeightedSum c10Entries
    criterion_scores := c10Entries
    summary := Json.str "s"
    evaluation_time := 0
    model_used := "gpt-4o" }

/-- The judge result the recovery parser builds from `c1Text`: the reported
out-of-range scores are echoed unclamped. -/
def c1Result : PyJudgeResult :=
  { judge_model := "m"
    overall_score := 15
    criterion_scores := [⟨"narrative_structure", 20, Json.str "poor"⟩]
    summary := Json.str "s"
    error := none }

/-- An enhanced-aggregator sample that was never judged. -/
def c7UnjudgedJ : JudgmentSample :=
  { prompt := "p", sampler_name := "s", sampler_config := [],
    generated_text := "t", judgment := none, repetition := 1 }

/-! ## Helper lemmas -/

theorem exceptBind_ok {ε α β : Type} {x : Except ε α} {f : α → Except ε β} {b : β}
    (h : x >>= f = Except.ok b) : ∃ a, x = Except.ok a ∧ f a = Except.ok b := by
  cases x with
  | ok a => exact ⟨a, rfl, h⟩
  | error e => simp [Bind.bind, Except.bind] at h

theorem exceptPure_ok {ε α : Type} {a b : α}
    (h : (pure a : Except ε α) = Except.ok b) : a = b := by
  simpa [pure, Except.pure] using h

/-! ## Claim C10 -/

/-- C10: in the single-judge parser (individual and batch paths alike),
whenever the parsed judgment data reports an overall score of exactly 5.0
and at least one criterion score was extracted, the returned overall score
is the weight-weighted sum of the criterion scores. -/
theorem c10_overall_five_replaced :
    (∀ (j : Json) (t : ℚ) (m : String) (r : JudgmentResult) (ov : Json),
      llmBuildJudgment j t m = Except.ok r →
      pyGet j "overall_score" (Json.num 5) = Except.ok ov →
      pyFloat ov = Except.ok 5 →
      r.criterion_scores ≠ [] →
      r.overall_score = llmWeightedSum r.criterion_scores)
  ∧ (∀ (j : Json) (t : ℚ) (m : String) (r : JudgmentResult) (ov : Json),
      llmBuildBatchOne j t m = Except.ok r →
      pyGet j "overall_score" (Json.num 5) = Except.ok ov →
      pyFloat ov = Except.ok 5 →
      r.criterion_scores ≠ [] →
      r.overall_score = llmWeightedSum r.criterion_scores) := by
  constructor
  all_goals {
    intro j t m r ov h hov hfl hne
    first
      | rw [llmBuildJudgment] at h
      | rw [llmBuildBatchOne] at h
    obtain ⟨cs, hcs, h⟩ := exceptBind_ok h
    obtain ⟨items, hitems, h⟩ := exceptBind_ok h
    obtain ⟨entries, hentries, h⟩ := exceptBind_ok h
    obtain ⟨ov', hov', h⟩ := exceptBind_ok h
    obtain ⟨ovq, hovq, h⟩ := exceptBind_ok h
    obtain ⟨summ, hsumm, h⟩ := exceptBind_ok h
    have hr := exceptPure_ok h
    rw [hov] at hov'
    injection hov' with hov''
    subst hov''
    rw [hfl] at hovq
    injection hovq with hq
    subst hq
    subst hr
    simp only at hne ⊢
    have hempty : entries.isEmpty = false := by
      cases entries with
      | nil => exact absurd rfl hne
      | cons a l => rfl
    simp [hempty]
  }

/-- C10 witness: the theorem applied to parsed data reporting overall 5.0
with one criterion scored 4, on both parser paths. -/
theorem c10_overall_five_replaced_witness :
    (llmBuildJudgment c10wJson 0 "m" = Except.ok c10wResult ∧
      c10wResult.overall_score = llmWeightedSum c10wResult.criterion_scores)
  ∧ (llmBuildBatchOne c10wJson 0 "m" = Except.ok c10wResult ∧
      c10wResult.overall_score = llmWeightedSum c10wResult.criterion_scores) :=
  ⟨⟨rfl, c10_overall_five_replaced.1 c10wJson 0 "m" c10wResult (Json.num 5) rfl rfl rfl
      (by simp [c10wResult])⟩,
   ⟨rfl, c10_overall_five_replaced.2 c10wJson 0 "m" c10wResult (Json.num 5) rfl rfl rfl
      (by simp [c10wResult])⟩⟩

/-- C10 counterexample: a judge that genuinely reports an overall score of
5.0 with all five criteria scored 5.0 still receives overall score 5.0 (the
weighted sum is itself 5.0), so the reported value is preserved, contrary
to the claim's "never". -/
theorem c10_counterexample :
    llmParseJudgment c10Text 0 "gpt-4o" = Except.ok c10FullResult
  ∧ c10FullResult.overall_score = 5 := by
  refine ⟨rfl, ?_⟩
  show llmWeightedSum c10Entries = 5
  norm_num [llmWeightedSum, c10Entries,
    show llmJudgeWeight "narrative_coherence" = mkRat 1 4 from rfl,
    show llmJudgeWeight "creativity_originality" = mkRat 1 4 from rfl,
    show llmJudgeWeight "character_development" = mkRat 1 5 from rfl,
    show llmJudgeWeight "engagement_readability" = mkRat 1 5 from rfl,
    show llmJudgeWeight "stylistic_quality" = mkRat 1 10 from rfl,
    Rat.mkRat_eq_div]

/-! ## Claim C1 -/

/-- C1 (amended): the recovery parser is total only up to `float()`
conversion errors, and it never clamps.  When both direct parsing and
extraction fail it returns the neutral fallback opinion, whose scores are
all 5.0 (within `[1,10]`) and whose `error` field is set; when the response
parses as structured data with numeric fields, the parsed overall score is
echoed unchanged, whatever its range. -/
theorem c1_parse_judgment_recovery :
    (∀ (extractJson : String → Option Json) (text model : String),
      pyJsonLoads text = none → extractJson text = none →
      parseJudgment extractJson text model =
        Except.ok (createFallbackResult model "Invalid JSON response") ∧
      (createFallbackResult model "Invalid JSON response").overall_score = 5 ∧
      (∀ e ∈ (createFallbackResult model "Invalid JSON response").criterion_scores,
        e.score = 5 ∧ 1 ≤ e.score ∧ e.score ≤ 10) ∧
      (createFallbackResult model "Invalid JSON response").error.isSome = true)
  ∧ (∀ (extractJson : String → Option Json) (text model : String) (j : Json)
      (r : PyJudgeResult) (ov : Json) (q : ℚ),
      pyJsonLoads text = some j →
      buildJudgeResult model j = Except.ok r →
      pyGet j "overall_score" (Json.num 5) = Except.ok ov →
      pyFloat ov = Except.ok q →
      parseJudgment extractJson text model = Except.ok r ∧ r.overall_score = q) := by
  constructor
  · intro extractJson text model hload hext
    refine ⟨?_, rfl, ?_, rfl⟩
    · rw [parseJudgment, hload, hext]
    · intro e he
      simp only [createFallbackResult, multiJudgeCriteria, List.map_cons, List.map_nil,
        List.mem_cons, List.not_mem_nil, or_false] at he
      rcases he with h | h | h | h | h <;> subst h <;> refine ⟨rfl, by norm_num, by norm_num⟩
  · intro extractJson text model j r ov q hload hbuild hov hfl
    constructor
    · rw [parseJudgment, hload]; exact hbuild
    · rw [buildJudgeResult] at hbuild
      obtain ⟨ov', hov', hbuild⟩ := exceptBind_ok hbuild
      obtain ⟨ovq, hovq, hbuild⟩ := exceptBind_ok hbuild
      obtain ⟨summ, hsumm, hbuild⟩ := exceptBind_ok hbuild
      obtain ⟨cs, hcs, hbuild⟩ := exceptBind_ok hbuild
      obtain ⟨items, hitems, hbuild⟩ := exceptBind_ok hbuild
      obtain ⟨entries, hentries, hbuild⟩ := exceptBind_ok hbuild
      have hr := exceptPure_ok hbuild
      rw [hov] at hov'
      injection hov' with he
      subst he
      rw [hfl] at hovq
      injection hovq with he
      subst he
      subst hr
      rfl

/-- C1 witness: the theorem applied to a garbage response (fallback path)
and to the structured response `c1Text` (echo path). -/
theorem c1_parse_judgment_recovery_witness :
    parseJudgment (fun _ => none) "garbage" "m" =
        Except.ok (createFallbackResult "m" "Invalid JSON response")
  ∧ (createFallbackResult "m" "Invalid JSON response").overall_score = 5
  ∧ (createFallbackResult "m" "Invalid JSON response").error.isSome = true
  ∧ (parseJudgment (fun _ => none) c1Text "m" = Except.ok c1Result ∧
      c1Result.overall_score = 15) :=
  ⟨(c1_parse_judgment_recovery.1 (fun _ => none) "garbage" "m" rfl rfl).1,
   (c1_parse_judgment_recovery.1 (fun _ => none) "garbage" "m" rfl rfl).2.1,
   (c1_parse_judgment_recovery.1 (fun _ => none) "garbage" "m" rfl rfl).2.2.2,
   c1_parse_judgment_recovery.2 (fun _ => none) c1Text "m" c1Json c1Result
     (Json.num 15) 15 rfl rfl rfl rfl⟩

/-- C1 counterexample: the claim fails twice over — a well-formed response
reporting `overall_score = 15` and a criterion score of 20 is echoed with
those out-of-range values, and a response whose `overall_score` is a
non-numeric string makes `float()` raise past the parsing boundary. -/
theorem c1_counterexample :
    (parseJudgment (fun _ => none) c1Text "m" = Except.ok c1Result
      ∧ c1Result.overall_score = 15 ∧ ¬(1 ≤ (15 : ℚ) ∧ (15 : ℚ) ≤ 10)
      ∧ c1Result.criterion_scores.map (fun e => e.score) = [20]
      ∧ ¬(1 ≤ (20 : ℚ) ∧ (20 : ℚ) ≤ 10))
  ∧ parseJudgment (fun _ => none) c1RaiseText "m" = Except.error PyErr.valueError :=
  ⟨⟨rfl, rfl, by norm_num, rfl, by norm_num⟩, rfl⟩

/-! ## Claim C3 -/

/-- C3 (amended): every failed judge still contributes exactly its own
opinion to the result sequence, with `error` set and the neutral midpoint
5.0 for the overall score and every criterion; but the reported
`judge_count` is the number of configured judges, failed ones included. -/
theorem c3_failed_judge_included :
    ∀ (judges : List String) (outcome : String → Except String PyJudgeResult)
      (arrival : List String), arrival.Perm judges →
      (∀ (jm : String) (e : String), jm ∈ judges → outcome jm = Except.error e →
        ∃ r ∈ (evaluateText judges outcome arrival).individual_results,
          r.judge_model = jm ∧ r.error = some e ∧ r.overall_score = 5 ∧
          ∀ en ∈ r.criterion_scores, en.score = 5)
      ∧ (evaluateText judges outcome arrival).judge_count = judges.length := by
  intro judges outcome arrival hperm
  constructor
  · intro jm e hmem herr
    refine ⟨createFallbackResult jm e, ?_, rfl, rfl, rfl, ?_⟩
    · show createFallbackResult jm e ∈ getParallelJudgments outcome arrival
      have harr : jm ∈ arrival := hperm.mem_iff.mpr hmem
      have : (fun m => match outcome m with
        | Except.ok r => r
        | Except.error e => createFallbackResult m e) jm = createFallbackResult jm e := by
        dsimp only
        rw [herr]
      exact this ▸ List.mem_map_of_mem _ harr
    · intro en hen
      simp only [createFallbackResult, multiJudgeCriteria, List.map_cons, List.map_nil,
        List.mem_cons, List.not_mem_nil, or_false] at hen
      rcases hen with h | h | h | h | h <;> subst h <;> rfl
  · rfl

/-- C3 witness: the theorem applied to two judges of which `b` times out,
collected in arrival order `[b, a]`. -/
theorem c3_failed_judge_included_witness :
    (["b", "a"] : List String).Perm ["a", "b"]
  ∧ c3Outcome "b" = Except.error "timeout"
  ∧ (evaluateText ["a", "b"] c3Outcome ["b", "a"]).judge_count = 2 :=
  ⟨by decide, rfl,
   (c3_failed_judge_included ["a", "b"] c3Outcome ["b", "a"] (by decide)).2⟩

/-- C3 counterexample: with judges `a` (succeeds) and `b` (times out), the
failed judge is represented with `error` set and neutral 5.0 scores, yet
`judge_count` is 2 — it does not exclude the failed judge, whose exclusion
would give 1. -/
theorem c3_counterexample :
    (evaluateText ["a", "b"] c3Outcome ["a", "b"]).individual_results.map
        (fun r => (r.judge_model, r.error)) = [("a", none), ("b", some "timeout")]
    ∧ (evaluateText ["a", "b"] c3Outcome ["a", "b"]).judge_count = 2
    ∧ ((["a", "b"] : List String).filter
        (fun m => (c3Outcome m).toOption.isSome)).length = 1
    ∧ (evaluateText ["a", "b"] c3Outcome ["a", "b"]).judge_count ≠ 1 := by
  refine ⟨rfl, rfl, rfl, ?_⟩
  show (2 : ℕ) ≠ 1
  decide

/-! ## Claim C2 -/

theorem c2_mean_eq : pyMean [(6 : ℚ), 7, 8] = 7 := by
  norm_num [pyMean]

theorem c2_var_eq : sampleVarQ [(6 : ℚ), 7, 8] = 1 := by
  norm_num [sampleVarQ, pyMean]

theorem c2_std_eq : pyStdevGuarded [(6 : ℚ), 7, 8] = 1 := by
  rw [pyStdevGuarded, if_pos (by norm_num), pyStdev, c2_var_eq]
  norm_num

theorem c2_overall_score_eq :
    (evaluateText ["j1", "j2", "j3"] c2Outcome ["j1", "j2", "j3"]).overall_score = 7 := by
  show pyMean [(6 : ℚ), 7, 8] = 7
  exact c2_mean_eq

theorem c2_overall_std_eq :
    (evaluateText ["j1", "j2", "j3"] c2Outcome ["j1", "j2", "j3"]).overall_std = 1 := by
  show pyStdevGuarded [(6 : ℚ), 7, 8] = 1
  exact c2_std_eq

theorem c2_strength_eq :
    (evaluateText ["j1", "j2", "j3"] c2Outcome ["j1", "j2", "j3"]).criterion_scores.map
      (fun cs => (cs.criterion, cs.consensus_strength)) =
    [("narrative_structure", (6 / 7 : ℝ))] := by
  show [("narrative_structure",
    clamp01 (if 0 < pyMean [(6 : ℚ), 7, 8] then
      1 - pyStdevGuarded [(6 : ℚ), 7, 8] / ((pyMean [(6 : ℚ), 7, 8] : ℚ) : ℝ) else 0))] =
    [("narrative_structure", (6 / 7 : ℝ))]
  rw [c2_mean_eq, c2_std_eq, if_pos (by norm_num : (0 : ℚ) < 7)]
  have hcl : clamp01 (1 - 1 / ((7 : ℚ) : ℝ)) = 6 / 7 := by
    rw [clamp01]
    push_cast
    rw [min_eq_right (by norm_num), max_eq_right (by norm_num)]
    norm_num
  rw [hcl]

/-- C2 (amended): three judges returning overall scores 6.0, 7.0, 8.0 for
the same sample yield a consensus overall mean of 7.0, an overall *sample*
standard deviation of exactly 1.0, and, for a criterion scored 6.0/7.0/8.0,
a consensus strength of `clamp(1 − 1.0/7.0, 0, 1) = 6/7 ≈ 0.857`. -/
theorem c2_consensus_six_seven_eight :
    (evaluateText ["j1", "j2", "j3"] c2Outcome ["j1", "j2", "j3"]).overall_score = 7
  ∧ (evaluateText ["j1", "j2", "j3"] c2Outcome ["j1", "j2", "j3"]).overall_std = 1
  ∧ (evaluateText ["j1", "j2", "j3"] c2Outcome ["j1", "j2", "j3"]).criterion_scores.map
      (fun cs => (cs.criterion, cs.consensus_strength)) =
      [("narrative_structure", (6 / 7 : ℝ))] :=
  ⟨c2_overall_score_eq, c2_overall_std_eq, c2_strength_eq⟩

/-- C2 counterexample: the code computes the *sample* standard deviation,
which is 1.0 for scores 6.0/7.0/8.0 — not approximately 0.816 (the
population value) — and the consensus strength is 6/7 ≈ 0.857, not
approximately 0.883. -/
theorem c2_counterexample :
    (evaluateText ["j1", "j2", "j3"] c2Outcome ["j1", "j2", "j3"]).overall_std = 1
  ∧ ¬(|(evaluateText ["j1", "j2", "j3"] c2Outcome ["j1", "j2", "j3"]).overall_std
        - 0.816| ≤ 0.05)
  ∧ (evaluateText ["j1", "j2", "j3"] c2Outcome ["j1", "j2", "j3"]).criterion_scores.map
      (fun cs => cs.consensus_strength) = [(6 / 7 : ℝ)]
  ∧ ¬(|(6 / 7 : ℝ) - 0.883| ≤ 0.01) := by
  refine ⟨c2_overall_std_eq, ?_, ?_, ?_⟩
  · rw [c2_overall_std_eq]
    rw [abs_le]
    norm_num
  · have h := c2_strength_eq
    have : (evaluateText ["j1", "j2", "j3"] c2Outcome ["j1", "j2", "j3"]).criterion_scores.map
        (fun cs => cs.consensus_strength) =
        ((evaluateText ["j1", "j2", "j3"] c2Outcome ["j1", "j2", "j3"]).criterion_scores.map
          (fun cs => (cs.criterion, cs.consensus_strength))).map (fun p => p.2) := by
      rw [List.map_map]
      rfl
    rw [this, h]
    rfl
  · rw [abs_le]
    norm_num

/-! ## Claim C8 -/

/-- C8: every guarded standard-deviation computation over fewer than 2
values returns 0 rather than failing; consensus over exactly one opinion
yields `std_score = 0` and `consensus_strength = 1` for every criterion
with positive mean, and the overall standard deviation of a single-judge
evaluation is 0. -/
theorem c8_degenerate_std_is_zero :
    (∀ xs : List ℚ, xs.length < 2 → pyStdevGuarded xs = 0)
  ∧ (∀ (r : PyJudgeResult) (cs : ConsensusScore), cs ∈ calculateConsensus [r] →
      0 < cs.mean_score → cs.std_score = 0 ∧ cs.consensus_strength = 1)
  ∧ (∀ (judge : String) (outcome : String → Except String PyJudgeResult),
      (evaluateText [judge] outcome [judge]).overall_std = 0) := by
  have hshort : ∀ xs : List ℚ, xs.length < 2 → pyStdevGuarded xs = 0 := by
    intro xs h
    rw [pyStdevGuarded, if_neg]
    omega
  refine ⟨hshort, ?_, ?_⟩
  · intro r cs hmem hpos
    rw [calculateConsensus] at hmem
    obtain ⟨c, hc, hfc⟩ := List.mem_filterMap.mp hmem
    by_cases hemp : (scoresFor [r] c).isEmpty
    · rw [if_pos hemp] at hfc
      exact absurd hfc (by simp)
    · rw [if_neg hemp] at hfc
      injection hfc with hcs
      subst hcs
      have hlen : (scoresFor [r] c).length < 2 := by
        rcases ho : r.criterion_scores.find? (fun e => e.criterion = c) with _ | e <;>
          simp [scoresFor, ho]
      refine ⟨hshort _ hlen, ?_⟩
      simp only at hpos ⊢
      rw [if_pos hpos, hshort _ hlen]
      rw [clamp01]
      norm_num
  · intro judge outcome
    show pyStdevGuarded ((getParallelJudgments outcome [judge]).map
      (fun r => r.overall_score)) = 0
    apply hshort
    simp [getParallelJudgments]

/-- C8 witness: the theorem applied to the one-element score list `[5]`,
the single opinion `c8r` (criterion scored 6), and a single-judge run. -/
theorem c8_degenerate_std_is_zero_witness :
    pyStdevGuarded [(5 : ℚ)] = 0
  ∧ (c8cs.std_score = 0 ∧ c8cs.consensus_strength = 1)
  ∧ (evaluateText ["a"] c3Outcome ["a"]).overall_std = 0 :=
  ⟨c8_degenerate_std_is_zero.1 [5] (by norm_num),
   c8_degenerate_std_is_zero.2.1 c8r c8cs
     (show c8cs ∈ [c8cs] from List.mem_singleton_self _)
     (by show (0 : ℚ) < pyMean [6]; norm_num [pyMean]),
   c8_degenerate_std_is_zero.2.2 "a" c3Outcome⟩

/-! ## Claim C6 -/

theorem pooledStd_comm (s1 s2 : List ℚ) : pooledStd s1 s2 = pooledStd s2 s1 := by
  rw [pooledStd, pooledStd]
  congr 1
  ring

/-- C6: the pairwise effect size is antisymmetric
(`d(A,B) = −d(B,A)`), vanishes on identical groups (`d(A,A) = 0`), and is 0
whenever either group has fewer than 2 samples or the pooled standard
deviation is 0. -/
theorem c6_effect_size_antisymmetric (s1 s2 : List ℚ)
    (h1 : 2 ≤ s1.length) (h2 : 2 ≤ s2.length) :
    calculate_cohens_d s1 s2 = -calculate_cohens_d s2 s1
  ∧ calculate_cohens_d s1 s1 = 0
  ∧ (∀ t1 t2 : List ℚ,
      (t1.length < 2 ∨ t2.length < 2) ∨ pooledStd t1 t2 = 0 →
      calculate_cohens_d t1 t2 = 0) := by
  refine ⟨?_, ?_, ?_⟩
  · rw [calculate_cohens_d, calculate_cohens_d,
      if_neg (by omega : ¬(s1.length < 2 ∨ s2.length < 2)),
      if_neg (by omega : ¬(s2.length < 2 ∨ s1.length < 2)),
      pooledStd_comm s2 s1]
    by_cases hp : pooledStd s1 s2 = 0
    · rw [if_pos hp, if_pos hp]
      norm_num
    · rw [if_neg hp, if_neg hp]
      ring
  · rw [calculate_cohens_d]
    by_cases hl : s1.length < 2 ∨ s1.length < 2
    · rw [if_pos hl]
    · rw [if_neg hl]
      by_cases hp : pooledStd s1 s1 = 0
      · rw [if_pos hp]
      · rw [if_neg hp, sub_self, zero_div]
  · intro t1 t2 h
    rcases h with hl | hp
    · rw [calculate_cohens_d, if_pos hl]
    · rw [calculate_cohens_d]
      by_cases hl : t1.length < 2 ∨ t2.length < 2
      · rw [if_pos hl]
      · rw [if_neg hl, if_pos hp]

/-- C6 witness: the theorem applied to the concrete score lists `[1,2]`
and `[3,5]`, with the degenerate case instantiated at `[1]` vs `[2,3]`. -/
theorem c6_effect_size_antisymmetric_witness :
    calculate_cohens_d [(1 : ℚ), 2] [(3 : ℚ), 5] =
      -calculate_cohens_d [(3 : ℚ), 5] [(1 : ℚ), 2]
  ∧ calculate_cohens_d [(1 : ℚ), 2] [(1 : ℚ), 2] = 0
  ∧ calculate_cohens_d [(1 : ℚ)] [(2 : ℚ), 3] = 0 :=
  ⟨(c6_effect_size_antisymmetric [1, 2] [3, 5] (by norm_num) (by norm_num)).1,
   (c6_effect_size_antisymmetric [1, 2] [3, 5] (by norm_num) (by norm_num)).2.1,
   (c6_effect_size_antisymmetric [1, 2] [3, 5] (by norm_num) (by norm_num)).2.2
     [1] [2, 3] (Or.inl (Or.inl (by norm_num)))⟩

/-! ## Claim C5 -/

/-- C5 (amended): with fewer than 2 scores the confidence interval
collapses to the single point (`(0,0)` when empty); with `n ≥ 2` it is
`mean ± t·std/√n`, where `t` is the table value for `n−1` degrees of
freedom when `n−1 ≤ 10`, the default `2.0` (not 1.96) for `12 ≤ n ≤ 29`,
and the z-value `1.96` for `n ≥ 30`. -/
theorem c5_confidence_interval_t_selection :
    ∀ scores : List ℚ,
      (scores.length < 2 →
        calculate_confidence_interval scores =
          (((scores.headD 0 : ℚ) : ℝ), ((scores.headD 0 : ℚ) : ℝ)))
    ∧ (2 ≤ scores.length →
        ∃ t : ℚ,
          ((scores.length ≤ 11 → t = tValueTable (scores.length - 1)) ∧
           (12 ≤ scores.length ∧ scores.length ≤ 29 → t = 2) ∧
           (30 ≤ scores.length → t = mkRat 196 100)) ∧
          calculate_confidence_interval scores =
            ((pyMean scores : ℝ) -
               (t : ℝ) * (pyStdev scores / Real.sqrt (scores.length : ℝ)),
             (pyMean scores : ℝ) +
               (t : ℝ) * (pyStdev scores / Real.sqrt (scores.length : ℝ)))) := by
  intro scores
  constructor
  · intro h
    rw [calculate_confidence_interval.eq_def, if_pos h]
    cases scores with
    | nil => norm_num
    | cons x l => rfl
  · intro h
    rw [calculate_confidence_interval.eq_def, if_neg (by omega)]
    refine ⟨if scores.length < 30 then tValueTable (scores.length - 1)
            else mkRat 196 100, ⟨?_, ?_, ?_⟩, rfl⟩
    · intro h11
      rw [if_pos (by omega)]
    · intro h29
      rw [if_pos (by omega), tValueTable]
      repeat rw [if_neg (by omega)]
    · intro h30
      rw [if_neg (by omega)]

/-- C5 witness: the theorem applied to the single score `[7]` (collapse to
a point) and to `[1,2]` (table value for 1 degree of freedom). -/
theorem c5_confidence_interval_t_selection_witness :
    calculate_confidence_interval [(7 : ℚ)] = (((7 : ℚ) : ℝ), ((7 : ℚ) : ℝ))
  ∧ calculate_confidence_interval [(1 : ℚ), 2] =
      ((pyMean [(1 : ℚ), 2] : ℝ) -
         (tValueTable 1 : ℝ) * (pyStdev [(1 : ℚ), 2] / Real.sqrt (([(1 : ℚ), 2].length : ℕ) : ℝ)),
       (pyMean [(1 : ℚ), 2] : ℝ) +
         (tValueTable 1 : ℝ) * (pyStdev [(1 : ℚ), 2] / Real.sqrt (([(1 : ℚ), 2].length : ℕ) : ℝ))) := by
  constructor
  · exact (c5_confidence_interval_t_selection [7]).1 (by norm_num)
  · obtain ⟨t, hchar, hci⟩ :=
      (c5_confidence_interval_t_selection [1, 2]).2 (by norm_num)
    rw [hchar.1 (by norm_num)] at hci
    exact hci

/-- C5 counterexample: for 12 scores (11 degrees of freedom, below the
n ≥ 30 threshold and above the table's 10-entry range) the code multiplies
by the default t-value 2.0, not by 1.96: on `c5Scores` (mean 7, sample
std √12) it returns the interval `(5, 9)`, while the 1.96 interval the
claim prescribes has lower endpoint 5.04 ≠ 5. -/
theorem c5_counterexample :
    calculate_confidence_interval c5Scores = ((5 : ℝ), (9 : ℝ))
  ∧ (pyMean c5Scores : ℝ) -
      (mkRat 196 100 : ℝ) * (pyStdev c5Scores / Real.sqrt (c5Scores.length : ℝ)) ≠ 5 := by
  have hlen : c5Scores.length = 12 := by rfl
  have hmean : pyMean c5Scores = 7 := by norm_num [pyMean, c5Scores]
  have hvar : sampleVarQ c5Scores = 12 := by norm_num [sampleVarQ, pyMean, c5Scores]
  have hstd : pyStdev c5Scores = Real.sqrt 12 := by
    rw [pyStdev, hvar]
    norm_num
  have hq : Real.sqrt 12 / Real.sqrt ((12 : ℕ) : ℝ) = 1 := by
    rw [show (((12 : ℕ) : ℝ)) = (12 : ℝ) by norm_num]
    exact div_self (by positivity)
  constructor
  · rw [calculate_confidence_interval.eq_def, if_neg (by rw [hlen]; omega)]
    dsimp only
    rw [hlen, if_pos (by omega : (12 : ℕ) < 30), hmean, hstd,
      show tValueTable (12 - 1) = 2 by norm_num [tValueTable], hq]
    norm_num
  · rw [hlen, hmean, hstd, hq]
    rw [show ((mkRat 196 100 : ℚ) : ℝ) = 1.96 by norm_num [Rat.mkRat_eq_div]]
    norm_num

/-! ## Claim C9: helper lemmas on list statistics -/

theorem list_sum_sq_dev (m : ℚ) (l : List ℚ) :
    (l.map (fun x => (x - m) ^ 2)).sum =
      (l.map (fun x => x ^ 2)).sum - 2 * m * l.sum + (l.length : ℚ) * m ^ 2 := by
  induction l with
  | nil => simp
  | cons x t ih =>
    simp only [List.map_cons, List.sum_cons, List.length_cons, ih]
    push_cast
    ring

theorem list_bound_le_sum (a : ℚ) (l : List ℚ) (h : ∀ x ∈ l, a ≤ x) :
    (l.length : ℚ) * a ≤ l.sum := by
  induction l with
  | nil => simp
  | cons x t ih =>
    simp only [List.length_cons, List.sum_cons]
    push_cast
    have h1 := h x (List.mem_cons_self x t)
    have h2 := ih (fun y hy => h y (List.mem_cons_of_mem x hy))
    nlinarith

theorem list_sum_le_bound (b : ℚ) (l : List ℚ) (h : ∀ x ∈ l, x ≤ b) :
    l.sum ≤ (l.length : ℚ) * b := by
  induction l with
  | nil => simp
  | cons x t ih =>
    simp only [List.length_cons, List.sum_cons]
    push_cast
    have h1 := h x (List.mem_cons_self x t)
    have h2 := ih (fun y hy => h y (List.mem_cons_of_mem x hy))
    nlinarith

theorem list_sum_sq_le (l : List ℚ) (h : ∀ x ∈ l, 1 ≤ x ∧ x ≤ 10) :
    (l.map (fun x => x ^ 2)).sum ≤ 11 * l.sum - 10 * (l.length : ℚ) := by
  induction l with
  | nil => simp
  | cons x t ih =>
    simp only [List.map_cons, List.sum_cons, List.length_cons]
    push_cast
    have h1 := h x (List.mem_cons_self x t)
    have h2 := ih (fun y hy => h y (List.mem_cons_of_mem x hy))
    nlinarith [h1.1, h1.2]

theorem list_sum_eq_mean_mul (l : List ℚ) (hne : l ≠ []) :
    l.sum = (l.length : ℚ) * pyMean l := by
  rw [pyMean]
  have hn : (l.length : ℚ) ≠ 0 := by
    have := List.length_pos.mpr hne
    positivity
  field_simp

theorem list_alleq_sum (c : ℚ) (l : List ℚ) (h : ∀ x ∈ l, x = c) :
    l.sum = (l.length : ℚ) * c := by
  induction l with
  | nil => simp
  | cons x t ih =>
    simp only [List.sum_cons, List.length_cons]
    push_cast
    rw [h x (List.mem_cons_self x t), ih (fun y hy => h y (List.mem_cons_of_mem x hy))]
    ring

theorem list_sum_sq_dev_nonneg (m : ℚ) (l : List ℚ) :
    0 ≤ (l.map (fun x => (x - m) ^ 2)).sum := by
  apply List.sum_nonneg
  intro q hq
  obtain ⟨x, _, rfl⟩ := List.mem_map.mp hq
  positivity

theorem list_sum_sq_dev_eq_zero_iff (m : ℚ) (l : List ℚ) :
    (l.map (fun x => (x - m) ^ 2)).sum = 0 ↔ ∀ x ∈ l, x = m := by
  induction l with
  | nil => simp
  | cons x t ih =>
    simp only [List.map_cons, List.sum_cons, List.mem_cons]
    constructor
    · intro h
      have hx : (0 : ℚ) ≤ (x - m) ^ 2 := by positivity
      have ht := list_sum_sq_dev_nonneg m t
      have hx0 : (x - m) ^ 2 = 0 := by linarith
      have hxm : x = m := by
        have := pow_eq_zero_iff (n := 2) (by norm_num) |>.mp hx0
        linarith [sub_eq_zero.mp this]
      refine fun y hy => ?_
      rcases hy with rfl | hy
      · exact hxm
      · exact (ih.mp (by linarith)) y hy
    · intro h
      have hx : x = m := h x (Or.inl rfl)
      have ht : ∀ y ∈ t, y = m := fun y hy => h y (Or.inr hy)
      rw [ih.mpr ht, hx]
      ring

theorem sampleVarQ_nonneg (l : List ℚ) (h2 : 2 ≤ l.length) : 0 ≤ sampleVarQ l := by
  rw [sampleVarQ]
  apply div_nonneg (list_sum_sq_dev_nonneg _ _)
  have : (2 : ℚ) ≤ (l.length : ℚ) := by exact_mod_cast h2
  linarith

theorem sampleVarQ_le_of_bounds (l : List ℚ) (h2 : 2 ≤ l.length)
    (h : ∀ x ∈ l, 1 ≤ x ∧ x ≤ 10) : sampleVarQ l ≤ 81 / 2 := by
  have hne : l ≠ [] := by
    intro h0
    rw [h0] at h2
    simp at h2
  have hn : (2 : ℚ) ≤ (l.length : ℚ) := by exact_mod_cast h2
  rw [sampleVarQ, div_le_iff₀ (by linarith)]
  rw [list_sum_sq_dev (pyMean l) l, list_sum_eq_mean_mul l hne]
  have hsq := list_sum_sq_le l h
  rw [list_sum_eq_mean_mul l hne] at hsq
  nlinarith [sq_nonneg (pyMean l - 11 / 2), hsq]

theorem sampleVarQ_eq_zero_iff (l : List ℚ) (h2 : 2 ≤ l.length) :
    sampleVarQ l = 0 ↔ ∀ x ∈ l, x = pyMean l := by
  have hn : (2 : ℚ) ≤ (l.length : ℚ) := by exact_mod_cast h2
  rw [sampleVarQ, div_eq_zero_iff]
  constructor
  · intro h
    rcases h with h | h
    · exact (list_sum_sq_dev_eq_zero_iff _ _).mp h
    · exact absurd h (by intro h0; linarith [sub_eq_zero.mp h0])
  · intro h
    exact Or.inl ((list_sum_sq_dev_eq_zero_iff _ _).mpr h)

theorem pyStdevGuarded_nonneg (l : List ℚ) : 0 ≤ pyStdevGuarded l := by
  rw [pyStdevGuarded]
  split
  · exact Real.sqrt_nonneg _
  · exact le_refl 0

theorem pyStdevGuarded_lt_ten (l : List ℚ) (h : ∀ x ∈ l, 1 ≤ x ∧ x ≤ 10) :
    pyStdevGuarded l < 10 := by
  rw [pyStdevGuarded]
  split
  · rename_i hlen
    rw [pyStdev, Real.sqrt_lt' (by norm_num : (0 : ℝ) < 10)]
    have hb : sampleVarQ l ≤ 81 / 2 := sampleVarQ_le_of_bounds l (by omega) h
    have : ((sampleVarQ l : ℚ) : ℝ) ≤ ((81 / 2 : ℚ) : ℝ) := by exact_mod_cast hb
    push_cast at this
    nlinarith
  · norm_num

theorem pyStdevGuarded_eq_zero_iff (l : List ℚ) :
    pyStdevGuarded l = 0 ↔ (l.length < 2 ∨ ∀ x ∈ l, x = pyMean l) := by
  rw [pyStdevGuarded]
  split
  · rename_i hlen
    rw [pyStdev, Real.sqrt_eq_zero']
    have h2 : 2 ≤ l.length := by omega
    constructor
    · intro h
      right
      have hge := sampleVarQ_nonneg l h2
      have hle : sampleVarQ l ≤ 0 := by exact_mod_cast h
      exact (sampleVarQ_eq_zero_iff l h2).mp (le_antisymm hle hge)
    · intro h
      rcases h with h | h
      · omega
      · have : sampleVarQ l = 0 := (sampleVarQ_eq_zero_iff l h2).mpr h
        rw [this]
        norm_num
  · rename_i hlen
    constructor
    · intro _
      left
      omega
    · intro _
      rfl

/-- All elements of a nonempty list in which any two elements are equal are
equal to the list's mean. -/
theorem list_pairwise_eq_mean (l : List ℚ) (hne : l ≠ [])
    (h : ∀ x ∈ l, ∀ y ∈ l, x = y) : ∀ x ∈ l, x = pyMean l := by
  cases l with
  | nil => exact absurd rfl hne
  | cons a t =>
    have ha : ∀ x ∈ a :: t, x = a := fun x hx =>
      h x hx a (List.mem_cons_self a t)
    have hsum := list_alleq_sum a (a :: t) ha
    have hmean : pyMean (a :: t) = a := by
      rw [pyMean, hsum]
      have hn : ((a :: t).length : ℚ) ≠ 0 := by
        simp
        positivity
      field_simp
    intro x hx
    rw [hmean]
    exact ha x hx

/-! ## Claim C9 -/

/-- C9: for per-prompt means all within `[1,10]`, the computed
`prompt_consistency` never exceeds its maximal value 10, attains 10 exactly
when all per-prompt means are equal, and strictly decreases as the
dispersion (guarded sample standard deviation) of the means grows; at zero
dispersion it equals 10 (finite, no divergence). -/
theorem c9_prompt_consistency_shape (l1 l2 : List ℚ)
    (h1 : ∀ x ∈ l1, 1 ≤ x ∧ x ≤ 10) (h2 : ∀ x ∈ l2, 1 ≤ x ∧ x ≤ 10)
    (hne1 : l1 ≠ []) (_hne2 : l2 ≠ []) :
    promptConsistency l1 ≤ 10
  ∧ (promptConsistency l1 = 10 ↔ ∀ x ∈ l1, ∀ y ∈ l1, x = y)
  ∧ (pyStdevGuarded l1 < pyStdevGuarded l2 →
      promptConsistency l2 < promptConsistency l1) := by
  have key : ∀ l : List ℚ, (∀ x ∈ l, 1 ≤ x ∧ x ≤ 10) →
      promptConsistency l = 10 - pyStdevGuarded l := by
    intro l h
    rw [promptConsistency,
      min_eq_right (by linarith [pyStdevGuarded_nonneg l]),
      max_eq_right (by linarith [pyStdevGuarded_lt_ten l h])]
  refine ⟨?_, ?_, ?_⟩
  · rw [key l1 h1]
    linarith [pyStdevGuarded_nonneg l1]
  · rw [key l1 h1]
    constructor
    · intro h
      have hs0 : pyStdevGuarded l1 = 0 := by linarith
      rcases (pyStdevGuarded_eq_zero_iff l1).mp hs0 with hlen | hmean
      · cases l1 with
        | nil => exact absurd rfl hne1
        | cons a t =>
          have ht : t = [] := by
            simp only [List.length_cons] at hlen
            exact List.length_eq_zero.mp (by omega)
          subst ht
          intro x hx y hy
          rw [List.mem_singleton.mp hx, List.mem_singleton.mp hy]
      · intro x hx y hy
        rw [hmean x hx, hmean y hy]
    · intro h
      have : pyStdevGuarded l1 = 0 :=
        (pyStdevGuarded_eq_zero_iff l1).mpr
          (Or.inr (list_pairwise_eq_mean l1 hne1 h))
      rw [this]
      norm_num
  · intro hlt
    rw [key l1 h1, key l2 h2]
    linarith

/-- C9 witness: the theorem applied to the per-prompt means `[5,5]`
(equal, zero dispersion) and `[4,6]` (dispersion √2). -/
theorem c9_prompt_consistency_shape_witness :
    promptConsistency [(5 : ℚ), 5] ≤ 10
  ∧ promptConsistency [(5 : ℚ), 5] = 10
  ∧ promptConsistency [(4 : ℚ), 6] < promptConsistency [(5 : ℚ), 5] := by
  have happ := c9_prompt_consistency_shape [(5 : ℚ), 5] [(4 : ℚ), 6]
    (by intro x hx; rcases List.mem_cons.mp hx with rfl | hx;
        · norm_num
        · rw [List.mem_singleton.mp hx]; norm_num)
    (by intro x hx; rcases List.mem_cons.mp hx with rfl | hx;
        · norm_num
        · rw [List.mem_singleton.mp hx]; norm_num)
    (by simp) (by simp)
  refine ⟨happ.1, ?_, ?_⟩
  · refine happ.2.1.mpr ?_
    intro x hx y hy
    rcases List.mem_cons.mp hx with rfl | hx'
    · rcases List.mem_cons.mp hy with rfl | hy'
      · rfl
      · rw [List.mem_singleton.mp hy']
    · rcases List.mem_cons.mp hy with rfl | hy'
      · rw [List.mem_singleton.mp hx']
      · rw [List.mem_singleton.mp hx', List.mem_singleton.mp hy']
  · apply happ.2.2
    have h5 : pyStdevGuarded [(5 : ℚ), 5] = 0 := by
      apply (pyStdevGuarded_eq_zero_iff _).mpr
      right
      intro x hx
      have hm : pyMean [(5 : ℚ), 5] = 5 := by norm_num [pyMean]
      rw [hm]
      rcases List.mem_cons.mp hx with rfl | hx'
      · rfl
      · exact List.mem_singleton.mp hx'
    have h46 : (0 : ℝ) < pyStdevGuarded [(4 : ℚ), 6] := by
      rw [pyStdevGuarded, if_pos (by norm_num), pyStdev]
      apply Real.sqrt_pos.mpr
      have : sampleVarQ [(4 : ℚ), 6] = 2 := by norm_num [sampleVarQ, pyMean]
      rw [this]
      norm_num
    linarith

/-! ## Claim C4 -/

/-- C4 (amended): the enhanced aggregation is a pure function of the
accumulated samples and the clock — two calls on an unchanged sample set
agree on every field except the wall-clock `timestamp`. -/
theorem c4_compute_pure_except_timestamp :
    ∀ (samples : List JudgmentSample) (bn mn t1 t2 : String),
      (get_enhanced_benchmark_results samples bn mn t1).map eraseTimestamp =
      (get_enhanced_benchmark_results samples bn mn t2).map eraseTimestamp := by
  intro samples bn mn t1 t2
  rw [get_enhanced_benchmark_results, get_enhanced_benchmark_results]
  cases pyMaxByKey (fun p => p.2.prompt_consistency) (samplerStatsOf samples) with
  | none => rfl
  | some mc =>
    cases pyMaxByKey (fun p => p.2.overall_mean) (samplerStatsOf samples) with
    | none => rfl
    | some hq => rfl

/-- C4 witness: the purity statement instantiated at one judged sample and
two distinct clock readings. -/
theorem c4_compute_pure_except_timestamp_witness :
    (get_enhanced_benchmark_results [c4Sample] "b" "m" "2024-01-01 10:00:00").map
        eraseTimestamp =
    (get_enhanced_benchmark_results [c4Sample] "b" "m" "2024-01-01 10:00:01").map
        eraseTimestamp :=
  c4_compute_pure_except_timestamp [c4Sample] "b" "m"
    "2024-01-01 10:00:00" "2024-01-01 10:00:01"

/-- C4 counterexample: two `compute()` calls on the same one-sample set at
different clock seconds differ (in the `timestamp` field), so the output is
not bit-identical. -/
theorem c4_counterexample :
    get_enhanced_benchmark_results [c4Sample] "b" "m" "2024-01-01 10:00:00" ≠
    get_enhanced_benchmark_results [c4Sample] "b" "m" "2024-01-01 10:00:01" := by
  intro h
  have h1 : (get_enhanced_benchmark_results [c4Sample] "b" "m"
      "2024-01-01 10:00:00").map (fun r => r.timestamp) =
      Except.ok "2024-01-01 10:00:00" := rfl
  have h2 : (get_enhanced_benchmark_results [c4Sample] "b" "m"
      "2024-01-01 10:00:01").map (fun r => r.timestamp) =
      Except.ok "2024-01-01 10:00:01" := rfl
  rw [h] at h1
  rw [h2] at h1
  have := Except.ok.inj h1
  exact absurd this (by decide)

/-! ## Claim C7 -/

/-- C7: aggregate statistics over an empty sample set give an explicit
no-data marker ( `{}` for no samples, a message dict for no judged samples)
rather than fabricated statistics; the enhanced benchmark verdict over a
set without judged samples is withheld with an error (`max()` raises
`ValueError`), and in general the verdict is an all-fields record or an
error, never a partial construction. -/
theorem c7_empty_input_no_data :
    calculate_quality_stats [] = QualityStats.empty
  ∧ (∀ samples : List QualitySample, samples ≠ [] →
      (∀ s ∈ samples, s.judgment = none) →
      calculate_quality_stats samples = QualityStats.noJudgments)
  ∧ (∀ (samples : List JudgmentSample) (bn mn ts : String),
      judgedSamples samples = [] →
      get_enhanced_benchmark_results samples bn mn ts =
        Except.error "ValueError: max() arg is an empty sequence")
  ∧ (∀ (samples : List JudgmentSample) (bn mn ts : String),
      (∃ e, get_enhanced_benchmark_results samples bn mn ts = Except.error e) ∨
      (∃ r, get_enhanced_benchmark_results samples bn mn ts = Except.ok r)) := by
  refine ⟨rfl, ?_, ?_, ?_⟩
  · intro samples hne hall
    rw [calculate_quality_stats]
    have hj : samples.filter (fun s => s.judgment.isSome) = [] := by
      rw [List.filter_eq_nil_iff]
      intro s hs
      rw [hall s hs]
      simp
    rw [if_neg (by simpa [List.isEmpty_iff] using hne)]
    simp only [hj]
    rfl
  · intro samples bn mn ts hj
    have h0 : samplerStatsOf samples = [] := by
      rw [samplerStatsOf, samplerPromptStatsOf, samplerNamesOf, groupKeys, hj]
      rfl
    rw [get_enhanced_benchmark_results, h0]
    rfl
  · intro samples bn mn ts
    cases h : get_enhanced_benchmark_results samples bn mn ts with
    | ok r => exact Or.inr ⟨r, rfl⟩
    | error e => exact Or.inl ⟨e, rfl⟩

/-- C7 witness: the no-judgments marker on one unjudged legacy sample and
the withheld enhanced verdict on one unjudged sample. -/
theorem c7_empty_input_no_data_witness :
    calculate_quality_stats [c7Unjudged] = QualityStats.noJudgments
  ∧ get_enhanced_benchmark_results [c7UnjudgedJ] "b" "m" "t" =
      Except.error "ValueError: max() arg is an empty sequence" :=
  ⟨c7_empty_input_no_data.2.1 [c7Unjudged] (by simp)
     (by intro s hs; rw [List.mem_singleton.mp hs]; rfl),
   c7_empty_input_no_data.2.2.1 [c7UnjudgedJ] "b" "m" "t" rfl⟩
